import Mathlib

/-!
Shallow embedding of the LTR-559 ambient-light / proximity sensor driver
(src/src/types.rs, src/src/lib.rs, src/src/device_impl.rs).

Modelling conventions:
* Machine integers (u8, u16) are modelled as Nat; where the Rust code can
  overflow (the u16 sum channel1 + channel0 in get_lux) the wraparound is
  made explicit with % 65536 (release-mode Rust wrapping semantics).
* The f32 arithmetic of get_lux is modelled with exact rationals.  This is
  faithful for the ratio threshold comparisons: the numerator ch1 * 1000 is
  always divisible by 8 and below 2^26, hence exactly representable in f32;
  the denominator is a nonzero 16-bit integer, hence exact; the division is
  correctly rounded, and the distance of any representable quotient from the
  thresholds 450 / 640 / 850 is at least 40/65535, far above half an ulp at
  those magnitudes, so the f32 comparisons agree with the rational ones.
* The blocking I2C transport is modelled explicitly: a driver state carries
  the traces of performed register reads and writes, and oracles
  (ok : Nat -> Bool for the n-th write, rok / rv for reads) decide the
  outcome of each successive bus transaction.
-/

namespace LTR559

/-- ALS gain settings, from the AlsGain enum in types.rs. -/
inductive AlsGain
  | Gain1x
  | Gain2x
  | Gain4x
  | Gain8x
  | Gain48x
  | Gain96x
  deriving DecidableEq

/-- Default for AlsGain (types.rs, impl Default for AlsGain). -/
def AlsGain.default : AlsGain := AlsGain.Gain1x

/-- AlsGain::value(), types.rs lines 29-39: gain code shifted by BIT_OFFSET = 2. -/
def AlsGain.value : AlsGain → Nat
  | .Gain1x => 0 <<< 2
  | .Gain2x => 1 <<< 2
  | .Gain4x => 2 <<< 2
  | .Gain8x => 3 <<< 2
  | .Gain48x => 6 <<< 2
  | .Gain96x => 7 <<< 2

/-- AlsGain::lux_compute_value(), types.rs lines 42-51 (f32 modelled as ℚ). -/
def AlsGain.lux_compute_value : AlsGain → ℚ
  | .Gain1x => 1
  | .Gain2x => 2
  | .Gain4x => 4
  | .Gain8x => 8
  | .Gain48x => 48
  | .Gain96x => 96

/-- ALS integration time, from the AlsIntTime enum in types.rs. -/
inductive AlsIntTime
  | _50ms
  | _100ms
  | _150ms
  | _200ms
  | _250ms
  | _300ms
  | _350ms
  | _400ms
  deriving DecidableEq

/-- Default for AlsIntTime (types.rs): 100 ms. -/
def AlsIntTime.default : AlsIntTime := AlsIntTime._100ms

/-- AlsIntTime::value(), types.rs lines 274-285. -/
def AlsIntTime.value : AlsIntTime → Nat
  | ._100ms => 0
  | ._50ms => 1
  | ._200ms => 2
  | ._400ms => 3
  | ._150ms => 4
  | ._250ms => 5
  | ._300ms => 6
  | ._350ms => 7

/-- AlsIntTime::lux_compute_value(), types.rs lines 288-299 (f32 modelled as ℚ). -/
def AlsIntTime.lux_compute_value : AlsIntTime → ℚ
  | ._100ms => 1
  | ._50ms => 1 / 2
  | ._200ms => 2
  | ._400ms => 4
  | ._150ms => 3 / 2
  | ._250ms => 5 / 2
  | ._300ms => 3
  | ._350ms => 7 / 2

/-- ALS measurement repeat rate, from the AlsMeasRate enum in types.rs. -/
inductive AlsMeasRate
  | _50ms
  | _100ms
  | _200ms
  | _500ms
  | _1000ms
  | _2000ms
  deriving DecidableEq

/-- AlsMeasRate::value(), types.rs lines 233-242. -/
def AlsMeasRate.value : AlsMeasRate → Nat
  | ._50ms => 0
  | ._100ms => 1
  | ._200ms => 2
  | ._500ms => 3
  | ._1000ms => 4
  | ._2000ms => 7

/-- Errors of the driver (lib.rs enum Error): an I2C transport error or
invalid input data. -/
inductive DriverError
  | i2c
  | invalidInputData
  deriving DecidableEq

/-- Driver session state (lib.rs struct Ltr559) together with the modelled
transport: the address, the cached gain and integration time, and the traces
of bus reads (registers, in order) and writes (register, value pairs, in
order) performed so far, with their counters. -/
structure S where
  address : Nat
  als_gain : AlsGain
  als_int : AlsIntTime
  nReads : Nat
  nWrites : Nat
  reads : List Nat
  writes : List (Nat × Nat)

/-- Ltr559::new_device (device_impl.rs create! macro): fresh session with the
default cached gain and integration time and an empty bus history. -/
def new_device (addr : Nat) : S :=
  { address := addr, als_gain := AlsGain.default, als_int := AlsIntTime.default,
    nReads := 0, nWrites := 0, reads := [], writes := [] }

/-- write_register (device_impl.rs lines 366-369): attempts one bus write of
(register, value); the oracle ok decides whether the n-th write succeeds. -/
def write_register (ok : Nat → Bool) (s : S) (reg val : Nat) :
    S × Except DriverError Unit :=
  let s' : S := { s with writes := s.writes ++ [(reg, val)], nWrites := s.nWrites + 1 }
  if ok s.nWrites then (s', Except.ok ()) else (s', Except.error DriverError.i2c)

/-- read_register (device_impl.rs lines 353-359): attempts one bus read of a
register; rok decides success of the n-th read and rv gives the byte read. -/
def read_register (rok : Nat → Bool) (rv : Nat → Nat) (s : S) (reg : Nat) :
    S × Except DriverError Nat :=
  let s' : S := { s with reads := s.reads ++ [reg], nReads := s.nReads + 1 }
  if rok s.nReads then (s', Except.ok (rv s.nReads % 256))
  else (s', Except.error DriverError.i2c)

/-- The ALS_CONTR byte computed by set_als_contr (device_impl.rs lines
110-116): gain value plus 2 for sw_reset plus 1 for als_active. -/
def alsContrValue (g : AlsGain) (sw_reset als_active : Bool) : Nat :=
  g.value + (if sw_reset then 2 else 0) + (if als_active then 1 else 0)

/-- set_als_contr (device_impl.rs lines 104-121): writes the ALS_CONTR byte
to register 0x80 and, only on success, updates the cached gain. -/
def set_als_contr (ok : Nat → Bool) (s : S) (g : AlsGain)
    (sw_reset als_active : Bool) : S × Except DriverError Unit :=
  match write_register ok s 0x80 (alsContrValue g sw_reset als_active) with
  | (s', Except.ok _) => ({ s' with als_gain := g }, Except.ok ())
  | (s', Except.error e) => (s', Except.error e)

/-- The ALS_MEAS_RATE byte computed by set_als_meas_rate (device_impl.rs
line 173): integration-time value shifted left by 3, or-ed with the rate. -/
def alsMeasRateValue (ti : AlsIntTime) (mr : AlsMeasRate) : Nat :=
  (ti.value <<< 3) ||| mr.value

/-- set_als_meas_rate (device_impl.rs lines 168-177): writes the byte to
register 0x85 and, only on success, updates the cached integration time. -/
def set_als_meas_rate (ok : Nat → Bool) (s : S) (ti : AlsIntTime)
    (mr : AlsMeasRate) : S × Except DriverError Unit :=
  match write_register ok s 0x85 (alsMeasRateValue ti mr) with
  | (s', Except.ok _) => ({ s' with als_int := ti }, Except.ok ())
  | (s', Except.error e) => (s', Except.error e)

/-- set_ps_offset (device_impl.rs lines 223-231): rejects values above 1023
before any bus access, otherwise writes the low byte to 0x94 and then the
high byte to 0x95. -/
def set_ps_offset (ok : Nat → Bool) (s : S) (v : Nat) :
    S × Except DriverError Unit :=
  if v > 1023 then (s, Except.error DriverError.invalidInputData)
  else
    match write_register ok s 0x94 (v % 256) with
    | (s1, Except.error e) => (s1, Except.error e)
    | (s1, Except.ok _) => write_register ok s1 0x95 ((v >>> 8) % 256)

/-- set_ps_n_pulses (device_impl.rs lines 236-242): writes the value to
register 0x83 when 0 < v < 16, otherwise rejects it before any bus access. -/
def set_ps_n_pulses (ok : Nat → Bool) (s : S) (v : Nat) :
    S × Except DriverError Unit :=
  if 0 < v ∧ v < 16 then write_register ok s 0x83 v
  else (s, Except.error DriverError.invalidInputData)

/-- Decoded status register (lib.rs struct Status). -/
structure Status where
  als_data_valid : Bool
  als_gain : Nat
  als_interrupt_status : Bool
  als_data_status : Bool
  ps_interrupt_status : Bool
  ps_data_status : Bool
  deriving DecidableEq

/-- The pure decoding of the raw ALS_PS_STATUS byte performed by get_status
(device_impl.rs lines 87-94), with the bit masks of device_impl.rs
lines 41-46. -/
def decodeStatus (config : Nat) : Status :=
  { ps_data_status := (config &&& 1) != 0
    ps_interrupt_status := (config &&& 2) != 0
    als_data_status := (config &&& 4) != 0
    als_interrupt_status := (config &&& 8) != 0
    als_gain := (config &&& (7 <<< 4)) >>> 4
    als_data_valid := (config &&& 128) != 128 }

/-- get_status (device_impl.rs lines 85-95): reads register 0x8C and decodes
it. -/
def get_status (rok : Nat → Bool) (rv : Nat → Nat) (s : S) :
    S × Except DriverError Status :=
  match read_register rok rv s 0x8C with
  | (s', Except.error e) => (s', Except.error e)
  | (s', Except.ok config) => (s', Except.ok (decodeStatus config))

/-- get_als_raw_data (device_impl.rs lines 271-287): reads the four data
registers 0x88, 0x89, 0x8A, 0x8B in order, assembles ch1 from the first two
and ch0 from the last two bytes little-endian, and returns (ch0, ch1). -/
def get_als_raw_data (rok : Nat → Bool) (rv : Nat → Nat) (s : S) :
    S × Except DriverError (Nat × Nat) :=
  match read_register rok rv s 0x88 with
  | (s0, Except.error e) => (s0, Except.error e)
  | (s0, Except.ok m0) =>
    match read_register rok rv s0 0x89 with
    | (s1, Except.error e) => (s1, Except.error e)
    | (s1, Except.ok m1) =>
      match read_register rok rv s1 0x8A with
      | (s2, Except.error e) => (s2, Except.error e)
      | (s2, Except.ok m2) =>
        match read_register rok rv s2 0x8B with
        | (s3, Except.error e) => (s3, Except.error e)
        | (s3, Except.ok m3) =>
          (s3, Except.ok ((m3 <<< 8) + m2, (m1 <<< 8) + m0))

/-- The ratio computed by get_lux (device_impl.rs lines 294-298).  The u16
sum channel1 + channel0 wraps modulo 2^16; when the wrapped sum is zero the
ratio is forced to 1000, otherwise it is channel1 * 1000 divided by the
wrapped sum (f32 modelled as ℚ, see the file header). -/
def ratio559 (ch0 ch1 : Nat) : ℚ :=
  if (ch1 + ch0) % 65536 = 0 then 1000
  else ((ch1 : ℚ) * 1000) / (((ch1 + ch0) % 65536 : Nat) : ℚ)

/-- The calibration row selection of get_lux (device_impl.rs lines 302-311). -/
def index_co (r : ℚ) : Nat :=
  if r < 450 then 0 else if r < 640 then 1 else if r < 850 then 2 else 3

/-- Channel-0 calibration coefficients ch0_c (device_impl.rs line 300). -/
def ch0_c : Nat → ℚ
  | 0 => 17743
  | 1 => 42785
  | 2 => 5926
  | _ => 0

/-- Channel-1 calibration coefficients ch1_c (device_impl.rs line 301). -/
def ch1_c : Nat → ℚ
  | 0 => -11059
  | 1 => 19548
  | 2 => -1185
  | _ => 0

/-- The pure lux computation of get_lux (device_impl.rs lines 292-318) on
the two raw channel values, given the cached gain and integration time. -/
def luxValue (g : AlsGain) (t : AlsIntTime) (ch0 ch1 : Nat) : ℚ :=
  let r := ratio559 ch0 ch1
  let i := index_co r
  ((ch0 : ℚ) * ch0_c i - (ch1 : ℚ) * ch1_c i) / 10000
    / t.lux_compute_value / g.lux_compute_value

/-- get_lux (device_impl.rs lines 290-319): reads the raw channels and
applies the lux computation with the cached gain and integration time. -/
def get_lux (rok : Nat → Bool) (rv : Nat → Nat) (s : S) :
    S × Except DriverError ℚ :=
  match get_als_raw_data rok rv s with
  | (s', Except.error e) => (s', Except.error e)
  | (s', Except.ok (ch0, ch1)) =>
    (s', Except.ok (luxValue s'.als_gain s'.als_int ch0 ch1))

/-- The pure decoding of the two PS data bytes performed by get_ps_data
(device_impl.rs lines 325-327): value from the low byte and the three low
bits of the high byte, saturation from bit 7 of the high byte. -/
def ps_decode (ps0 ps1 : Nat) : Nat × Bool :=
  (((ps1 &&& 7) <<< 8) + ps0, (ps1 &&& 128) != 0)

/-- get_ps_data (device_impl.rs lines 322-328): reads registers 0x8D and
0x8E and decodes them. -/
def get_ps_data (rok : Nat → Bool) (rv : Nat → Nat) (s : S) :
    S × Except DriverError (Nat × Bool) :=
  match read_register rok rv s 0x8D with
  | (s0, Except.error e) => (s0, Except.error e)
  | (s0, Except.ok ps0) =>
    match read_register rok rv s0 0x8E with
    | (s1, Except.error e) => (s1, Except.error e)
    | (s1, Except.ok ps1) => (s1, Except.ok (ps_decode ps0 ps1))

/-- reset_internal_driver_state (device_impl.rs lines 343-346): resets the
cached gain and integration time to their defaults; no bus transaction. -/
def reset_internal_driver_state (s : S) : S :=
  { s with als_gain := AlsGain.default, als_int := AlsIntTime.default }

/-- Helper: complete characterization of the calibration row selection of
get_lux by the ratio thresholds. -/
theorem index_co_cases (r : ℚ) :
    (index_co r = 0 ↔ r < 450) ∧ (index_co r = 1 ↔ 450 ≤ r ∧ r < 640) ∧
    (index_co r = 2 ↔ 640 ≤ r ∧ r < 850) ∧ (index_co r = 3 ↔ 850 ≤ r) := by
  unfold index_co
  split_ifs with h1 h2 h3 <;>
    refine ⟨?_, ?_, ?_, ?_⟩ <;> constructor <;> intro hx <;>
      first
        | rfl
        | linarith
        | (exact absurd hx (by decide))
        | (exact ⟨by linarith, by linarith⟩)

/-- C1: get_lux selects the calibration row by lower-exclusive ratio
thresholds (row 0 for ratio < 450, row 1 for 450 ≤ ratio < 640, row 2 for
640 ≤ ratio < 850, row 3 for ratio ≥ 850), the rows carry the coefficients
(17743, -11059), (42785, 19548), (5926, -1185), (0, 0), a ratio of exactly
450 selects row 1, and the lux is (ch0 * ch0_coeff - ch1 * ch1_coeff) /
10000 divided by the cached integration-time factor and gain factor. -/
theorem c1_row_selection_and_formula (g : AlsGain) (t : AlsIntTime)
    (ch0 ch1 : Nat) :
    (index_co (ratio559 ch0 ch1) = 0 ↔ ratio559 ch0 ch1 < 450) ∧
    (index_co (ratio559 ch0 ch1) = 1 ↔
      450 ≤ ratio559 ch0 ch1 ∧ ratio559 ch0 ch1 < 640) ∧
    (index_co (ratio559 ch0 ch1) = 2 ↔
      640 ≤ ratio559 ch0 ch1 ∧ ratio559 ch0 ch1 < 850) ∧
    (index_co (ratio559 ch0 ch1) = 3 ↔ 850 ≤ ratio559 ch0 ch1) ∧
    ch0_c 0 = 17743 ∧ ch1_c 0 = -11059 ∧
    ch0_c 1 = 42785 ∧ ch1_c 1 = 19548 ∧
    ch0_c 2 = 5926 ∧ ch1_c 2 = -1185 ∧
    ch0_c 3 = 0 ∧ ch1_c 3 = 0 ∧
    index_co (450 : ℚ) = 1 ∧
    luxValue g t ch0 ch1 =
      ((ch0 : ℚ) * ch0_c (index_co (ratio559 ch0 ch1))
          - (ch1 : ℚ) * ch1_c (index_co (ratio559 ch0 ch1))) / 10000
        / t.lux_compute_value / g.lux_compute_value := by
  obtain ⟨a, b, c, d⟩ := index_co_cases (ratio559 ch0 ch1)
  refine ⟨a, b, c, d, rfl, rfl, rfl, rfl, rfl, rfl, rfl, rfl, ?_, rfl⟩
  unfold index_co
  norm_num

/-- C2 counterexample: the ALS control byte written for (Gain2x, false,
false) is 4, which has nothing in bits 4-6 and a nonzero gain contribution
in bits 0-3, so the gain field is not placed in bits 4-6 as claimed. -/
theorem c2_counterexample :
    alsContrValue AlsGain.Gain2x false false = 4 ∧
    AlsGain.value AlsGain.Gain2x = 4 ∧
    (4 : Nat) &&& 112 = 0 ∧ (4 : Nat) &&& 15 ≠ 0 := by decide

/-- C2 amended: the ALS control byte equals gain.value() placed in bits 2-4
(a multiple of 4 below 32), or-ed with 2 if sw_reset and 1 if als_active,
and this is exactly the byte set_als_contr writes to register 0x80. -/
theorem c2_amended (ok : Nat → Bool) (s : S) (g : AlsGain) (sw act : Bool) :
    alsContrValue g sw act
      = AlsGain.value g ||| (if sw then 2 else 0) ||| (if act then 1 else 0) ∧
    AlsGain.value g % 4 = 0 ∧ AlsGain.value g < 32 ∧
    (set_als_contr ok s g sw act).1.writes
      = s.writes ++ [(0x80, alsContrValue g sw act)] := by
  refine ⟨by cases g <;> cases sw <;> cases act <;> decide,
          by cases g <;> decide, by cases g <;> decide, ?_⟩
  unfold set_als_contr write_register
  cases h : ok s.nWrites <;> simp [h]

/-- C3 counterexample: at channel0 = channel1 = 0x8000 the u16 sum wraps to
zero, so get_lux forces the ratio to 1000 although the channels are not both
zero, and the ratio does not equal channel1 * 1000 / (channel1 + channel0). -/
theorem c3_counterexample :
    ratio559 32768 32768 = 1000 ∧
    ¬ ((32768 : Nat) = 0 ∧ (32768 : Nat) = 0) ∧
    ratio559 32768 32768 ≠ ((32768 : ℚ) * 1000) / ((32768 : ℚ) + 32768) := by
  have h : ratio559 32768 32768 = 1000 := by
    unfold ratio559; norm_num
  refine ⟨h, by norm_num, ?_⟩
  rw [h]; norm_num

/-- C3 amended: get_lux forces the ratio to 1000 exactly when the 16-bit
wrapped sum (channel1 + channel0) mod 2^16 is zero (which includes the pair
(0, 0) and any pair whose u16 sum overflows to zero); otherwise the ratio
equals channel1 * 1000 divided by the wrapped sum. -/
theorem c3_amended (ch0 ch1 : Nat) :
    if (ch1 + ch0) % 65536 = 0 then ratio559 ch0 ch1 = 1000
    else ratio559 ch0 ch1 * (((ch1 + ch0) % 65536 : Nat) : ℚ)
          = (ch1 : ℚ) * 1000 := by
  unfold ratio559
  split_ifs with h
  · rfl
  · rw [div_mul_cancel₀]
    exact Nat.cast_ne_zero.mpr h

/-- C4: set_als_contr updates the cached gain to its argument exactly when
the register write succeeds and leaves it unchanged on transport failure;
set_als_meas_rate likewise updates the cached integration time exactly on
success and leaves it unchanged on failure. -/
theorem c4_cache_update_on_success (ok : Nat → Bool) (s : S) (g : AlsGain)
    (sw act : Bool) (ti : AlsIntTime) (mr : AlsMeasRate) :
    ((set_als_contr ok s g sw act).1.als_gain
        = if ok s.nWrites then g else s.als_gain) ∧
    ((set_als_contr ok s g sw act).2 = Except.ok () ↔ ok s.nWrites = true) ∧
    ((set_als_meas_rate ok s ti mr).1.als_int
        = if ok s.nWrites then ti else s.als_int) ∧
    ((set_als_meas_rate ok s ti mr).2 = Except.ok () ↔ ok s.nWrites = true) := by
  unfold set_als_contr set_als_meas_rate write_register
  cases h : ok s.nWrites <;> simp [h]

/-- C5: get_status decodes als_data_valid with inverted polarity: it is true
exactly when bit 7 of the status byte is clear; in particular byte 0x80
decodes to false and byte 0x00 decodes to true. -/
theorem c5_als_data_valid_inverted (b : Nat) :
    ((decodeStatus b).als_data_valid = true ↔ Nat.testBit b 7 = false) ∧
    (decodeStatus 128).als_data_valid = false ∧
    (decodeStatus 0).als_data_valid = true := by
  refine ⟨?_, by decide, by decide⟩
  have h : b &&& 128 = (Nat.testBit b 7).toNat * 128 := by
    have h2 := Nat.and_two_pow b 7
    norm_num at h2
    exact h2
  simp only [decodeStatus, h]
  cases Nat.testBit b 7 <;> simp

/-- C6: set_ps_offset rejects every value above 1023 with InvalidInputData
and no bus write, and otherwise writes low byte v mod 256 to 0x94 and then
high byte v / 2^8 to 0x95 (for 1023: low 0xFF then high 0x03); and
set_ps_n_pulses rejects 0 and every value of 16 or more with
InvalidInputData and no bus write, and performs the single-byte write to
0x83 for every value in 1..15. -/
theorem c6_input_validation (ok : Nat → Bool) (s : S) (v w : Nat) :
    ((set_ps_offset ok s v).1.writes =
        if v > 1023 then s.writes
        else if ok s.nWrites then
          s.writes ++ [(0x94, v % 256), (0x95, (v >>> 8) % 256)]
        else s.writes ++ [(0x94, v % 256)]) ∧
    ((set_ps_offset ok s v).2 =
        if v > 1023 then Except.error DriverError.invalidInputData
        else if ok s.nWrites && ok (s.nWrites + 1) then Except.ok ()
        else Except.error DriverError.i2c) ∧
    ((set_ps_offset (fun _ => true) (new_device 0x23) 1023).1.writes
        = [(0x94, 0xFF), (0x95, 0x03)]) ∧
    ((set_ps_n_pulses ok s w).1.writes =
        if 0 < w ∧ w < 16 then s.writes ++ [(0x83, w)] else s.writes) ∧
    ((set_ps_n_pulses ok s w).2 =
        if 0 < w ∧ w < 16 then
          (if ok s.nWrites then Except.ok () else Except.error DriverError.i2c)
        else Except.error DriverError.invalidInputData) := by
  refine ⟨?_, ?_, by decide, ?_, ?_⟩
  · unfold set_ps_offset write_register
    split_ifs <;> simp_all
    split_ifs <;> simp_all
  · unfold set_ps_offset write_register
    split_ifs <;> simp_all
  · unfold set_ps_n_pulses write_register
    split_ifs <;> simp_all
  · unfold set_ps_n_pulses write_register
    split_ifs <;> simp_all

/-- C7: whenever the computed ratio is at least 850 the lux is 0 regardless
of the raw counts, the cached gain and the integration time; in particular
for both channels zero the lux is 0, and get_lux returns exactly 0 when all
four data-register reads yield zero bytes. -/
theorem c7_high_ratio_saturation (g : AlsGain) (t : AlsIntTime)
    (ch0 ch1 : Nat) (h : 850 ≤ ratio559 ch0 ch1) :
    luxValue g t ch0 ch1 = 0 ∧ luxValue g t 0 0 = 0 ∧
    (∀ s : S, (get_lux (fun _ => true) (fun _ => 0) s).2 = Except.ok 0) := by
  have hrow : ∀ (g' : AlsGain) (t' : AlsIntTime) (a b : Nat),
      850 ≤ ratio559 a b → luxValue g' t' a b = 0 := by
    intro g' t' a b hab
    have h3 : index_co (ratio559 a b) = 3 := by
      unfold index_co
      rw [if_neg (by linarith), if_neg (by linarith), if_neg (by linarith)]
    unfold luxValue
    simp only [h3, show ch0_c 3 = 0 from rfl, show ch1_c 3 = 0 from rfl]
    simp
  have hzero : ∀ (g' : AlsGain) (t' : AlsIntTime), luxValue g' t' 0 0 = 0 := by
    intro g' t'
    refine hrow g' t' 0 0 ?_
    unfold ratio559
    norm_num
  refine ⟨hrow g t ch0 ch1 h, hzero g t, ?_⟩
  intro s
  unfold get_lux get_als_raw_data read_register
  simp [hzero]

/-- C7 witness: the hypothesis is satisfiable, e.g. at channel0 = 0,
channel1 = 5 the ratio is 1000 ≥ 850 and the lux is 0. -/
theorem c7_witness :
    850 ≤ ratio559 0 5 ∧
    luxValue AlsGain.Gain1x AlsIntTime._100ms 0 5 = 0 := by
  have h : 850 ≤ ratio559 0 5 := by
    unfold ratio559; norm_num
  exact ⟨h, (c7_high_ratio_saturation AlsGain.Gain1x AlsIntTime._100ms 0 5 h).1⟩

/-- C8: get_als_raw_data performs exactly four single-byte reads in the
fixed order 0x88, 0x89, 0x8A, 0x8B, assembles each channel little-endian as
(high <<< 8) + low (channel 1 from the first two bytes, channel 0 from
the last two), and returns the pair ordered (channel0, channel1). -/
theorem c8_raw_data_read_order (rv : Nat → Nat) (s : S) :
    ((get_als_raw_data (fun _ => true) rv s).1.reads
        = s.reads ++ [0x88, 0x89, 0x8A, 0x8B]) ∧
    ((get_als_raw_data (fun _ => true) rv s).1.nReads = s.nReads + 4) ∧
    ((get_als_raw_data (fun _ => true) rv s).2
        = Except.ok (((rv (s.nReads + 3) % 256) <<< 8) + rv (s.nReads + 2) % 256,
                     ((rv (s.nReads + 1) % 256) <<< 8) + rv s.nReads % 256)) := by
  unfold get_als_raw_data read_register
  simp [List.append_assoc]

/-- C9: reset_internal_driver_state resets the cached gain to the default
Gain1x and the cached integration time to the default 100 ms, performs no
bus transaction and changes no other session field; after setting Gain96x
and then resetting, the cached gain is Gain1x, not Gain96x. -/
theorem c9_reset_driver_state (s : S) :
    (reset_internal_driver_state s).als_gain = AlsGain.Gain1x ∧
    (reset_internal_driver_state s).als_int = AlsIntTime._100ms ∧
    AlsGain.default = AlsGain.Gain1x ∧
    AlsIntTime.default = AlsIntTime._100ms ∧
    (reset_internal_driver_state s).address = s.address ∧
    (reset_internal_driver_state s).reads = s.reads ∧
    (reset_internal_driver_state s).writes = s.writes ∧
    (reset_internal_driver_state s).nReads = s.nReads ∧
    (reset_internal_driver_state s).nWrites = s.nWrites ∧
    (reset_internal_driver_state
        (set_als_contr (fun _ => true) s AlsGain.Gain96x false false).1).als_gain
      = AlsGain.Gain1x ∧
    (set_als_contr (fun _ => true) s AlsGain.Gain96x false false).1.als_gain
      = AlsGain.Gain96x ∧
    AlsGain.Gain1x ≠ AlsGain.Gain96x := by
  refine ⟨rfl, rfl, rfl, rfl, rfl, rfl, rfl, rfl, rfl, rfl, ?_, by decide⟩
  unfold set_als_contr write_register
  simp

/-- Helper: masking with 128 tests bit 7. -/
theorem and128_testBit (h : Nat) : ((h &&& 128) != 0) = Nat.testBit h 7 := by
  have e := Nat.and_two_pow h 7
  norm_num at e
  rw [e]
  cases Nat.testBit h 7 <;> simp

/-- C10: get_ps_data reads registers 0x8D and 0x8E and decodes them; the
proximity value is ((high &&& 7) * 256) + low, hence at most 2047; bits 3-6
of the high byte never affect the value; and the saturated flag is true
exactly when bit 7 of the high byte is set. -/
theorem c10_ps_data_decode (rv : Nat → Nat) (s : S) (low high : Nat)
    (hl : low < 256) (hh : high < 256) :
    ((get_ps_data (fun _ => true) rv s).2
        = Except.ok (ps_decode (rv s.nReads % 256) (rv (s.nReads + 1) % 256))) ∧
    (ps_decode low high).1 = (high &&& 7) * 256 + low ∧
    (ps_decode low high).1 ≤ 2047 ∧
    (ps_decode low high).1 = (ps_decode low (high &&& 135)).1 ∧
    ((ps_decode low high).2 = true ↔ Nat.testBit high 7 = true) ∧
    (get_ps_data (fun _ => true) rv s).1.reads = s.reads ++ [0x8D, 0x8E] := by
  refine ⟨?_, ?_, ?_, ?_, ?_, ?_⟩
  · unfold get_ps_data read_register
    simp
  · simp [ps_decode, Nat.shiftLeft_eq]
  · have ha : high &&& 7 ≤ 7 := Nat.and_le_right
    have hv : (ps_decode low high).1 = (high &&& 7) * 256 + low := by
      simp [ps_decode, Nat.shiftLeft_eq]
    omega
  · show ((high &&& 7) <<< 8) + low = (((high &&& 135) &&& 7) <<< 8) + low
    rw [Nat.and_assoc, show (135 &&& 7 : Nat) = 7 by decide]
  · show (((high &&& 128) != 0) = true ↔ Nat.testBit high 7 = true)
    rw [and128_testBit]
  · unfold get_ps_data read_register
    simp [List.append_assoc]

/-- C10 witness: the hypotheses are satisfiable, e.g. at low byte 171 and
high byte 143 (bits 0-3 and 7 set). -/
theorem c10_witness :
    (171 : Nat) < 256 ∧ (143 : Nat) < 256 ∧
    (((get_ps_data (fun _ => true) (fun _ => 0) (new_device 0x23)).2
        = Except.ok (ps_decode (0 % 256) (0 % 256))) ∧
     (ps_decode 171 143).1 = (143 &&& 7) * 256 + 171 ∧
     (ps_decode 171 143).1 ≤ 2047 ∧
     (ps_decode 171 143).1 = (ps_decode 171 (143 &&& 135)).1 ∧
     ((ps_decode 171 143).2 = true ↔ Nat.testBit 143 7 = true) ∧
     (get_ps_data (fun _ => true) (fun _ => 0) (new_device 0x23)).1.reads
        = (new_device 0x23).reads ++ [0x8D, 0x8E]) :=
  ⟨by decide, by decide,
    c10_ps_data_decode (fun _ => 0) (new_device 0x23) 171 143 (by decide)
      (by decide)⟩

end LTR559
